import Mathlib

/-!
Verification development for the multi-agent negotiator backend.

The definitions below are a shallow embedding of the Python sources under
`backend/`: the data model (`models/debate.py`), the negotiation loop
(`services/debate_service.py`), roster creation (`services/agent_service.py`)
and the Redis-backed memory service (`services/memory_service.py`).
Machine-generated identifiers (uuid4) and wall-clock timestamps are
abstracted away: they never influence control flow.  External collaborators
(the LLM backends, the Redis client) are modelled as explicit parameters so
that every definition stays executable and deterministic.
-/

namespace Negotiator

/-- Participant record, from `models/debate.py` (`class Agent`).  The `id`
field is a uuid4 in the source; here it is an explicit string.  The
`llm_provider` attribute is assigned by `agent_service.generate_agents`. -/
structure Agent where
  id : String
  name : String
  role : String
  personality : String
  goals : List String
  constraints : List String
  expertise : List String
  initial_stance : String
  reasoning_style : String
  communication_style : String
  llm_provider : Option String := none
deriving Repr, DecidableEq, Inhabited

/-- One transcript entry, from `models/debate.py` (`class DebateMessage`).
The uuid `id` and the `timestamp` are abstracted away; `metadata` is the
free-form dict of the source, encoded as string key/value pairs (numeric
values rendered with `toString`). -/
structure DebateMessage where
  session_id : String
  agent_id : String
  agent_name : String
  message_type : String
  content : String
  round_number : Nat
  response_to : Option String := none
  metadata : List (String × String)
deriving Repr, DecidableEq

/-- Consensus evaluation output, from `models/debate.py`
(`class ConsensusResult`); `consensus_level` is an exact rational standing
for the Python float (the stub only ever produces `0.0`). -/
structure ConsensusResult where
  consensus_reached : Bool
  consensus_level : Rat
  agreement_points : List String
  disagreement_points : List String
  final_decision : Option String := none
  voting_results : List (String × String) := []
deriving Repr, DecidableEq

/-- Debate session state, from `models/debate.py` (`class DebateSession`).
`status` is the string value of the `DebateStatus` enum.  `adk_session_config`
is the free-form dict of the source encoded as string pairs. -/
structure DebateSession where
  id : String
  scenario : String
  agents : List Agent
  status : String
  current_round : Nat
  max_rounds : Nat
  consensus_reached : Bool
  consensus_result : Option ConsensusResult
  messages : List DebateMessage
  orchestrator_id : Option String := none
  adk_session_config : List (String × String) := []
deriving Repr, DecidableEq

/-- Per-participant memory, from `models/debate.py` (`class AgentMemory`),
restricted to the fields the embedded services read or write. -/
structure AgentMemory where
  agent_id : String
  session_id : String
  past_proposals : List String := []
  past_reasoning : List String := []
  current_stance : String
deriving Repr, DecidableEq

/-- Standardized LLM response, from `services/llm_service.py`
(`@dataclass LLMResponse`). -/
structure LLMResponse where
  content : String
  provider : String
  model : String
  tokens_used : Nat := 0
  finish_reason : String := ""
deriving Repr, DecidableEq

/-- Configuration fields from `utils/config.py` (`class Settings`) used by
the embedded services, with their declared defaults.  `default_llm_provider`
is the attribute name the services read (`utils/config.py` itself declares
the legacy `llm_provider` field with the same `"openai"` default). -/
structure Settings where
  memory_ttl_seconds : Nat
  debate_min_agents : Nat
  debate_max_agents : Nat
  default_llm_provider : String
deriving Repr, DecidableEq

/-- Default settings instance (`get_settings()` with no environment
overrides): `memory_ttl_seconds = 3600`, `debate_min_agents = 3`,
`debate_max_agents = 10`, provider `"openai"`. -/
def settings : Settings :=
  { memory_ttl_seconds := 3600
    debate_min_agents := 3
    debate_max_agents := 10
    default_llm_provider := "openai" }

/-- Context assembled for one agent turn, from
`DebateService._build_agent_context`. -/
structure AgentContext where
  recent_messages : List DebateMessage
  agent_memory : Option AgentMemory
  scenario : String
  round : Nat
deriving Repr, DecidableEq

/-- External collaborators of `DebateService.start_debate`:
`registry` is the key set of `self.agent_registry` (the ids for which
`create_adk_agent` succeeded during `create_session`); `gen` is the
deterministic generation backend standing for
`llm_service.generate_agent_response` (the prompt strings built by
`_build_agent_prompt` / `_build_agent_system_prompt` are functions of the
agent and the context, so the backend receives both); `memory` stands for
`memory_service.get_agent_memory`. -/
structure DebateEnv where
  registry : List String
  gen : Agent → AgentContext → Except String LLMResponse
  memory : String → String → Option AgentMemory

/-- Last `n` elements of a list: Python's `l[-n:]`. -/
def lastN (n : Nat) (l : List α) : List α := l.drop (l.length - n)

/-- `DebateService._build_agent_context`: the last 5 transcript messages,
this agent's memory from the store, the scenario and the current round. -/
def build_agent_context (env : DebateEnv) (session : DebateSession)
    (agent : Agent) : AgentContext :=
  { recent_messages := lastN 5 session.messages
    agent_memory := env.memory session.id agent.id
    scenario := session.scenario
    round := session.current_round }

/-- Fallback content of the error-marker turn, from the `except` branch of
`start_debate`: `f"[Error] Agent {agent.name} encountered an error in round
{round_num}."`. -/
def errorContent (agent : Agent) (round_num : Nat) : String :=
  "[Error] Agent " ++ agent.name ++ " encountered an error in round "
    ++ toString round_num ++ "."

/-- The `DebateMessage` built for one agent in one round of `start_debate`:
the `try` branch on generation success, the `except` branch (error-marker
turn) on generation failure. -/
def turnMessage (env : DebateEnv) (session : DebateSession) (round_num : Nat)
    (agent : Agent) : DebateMessage :=
  match env.gen agent (build_agent_context env session agent) with
  | .ok r =>
      { session_id := session.id
        agent_id := agent.id
        agent_name := agent.name
        message_type := "argument"
        content := r.content
        round_number := round_num
        metadata := [("llm_provider", r.provider), ("llm_model", r.model),
                     ("tokens_used", toString r.tokens_used),
                     ("finish_reason", r.finish_reason)] }
  | .error e =>
      { session_id := session.id
        agent_id := agent.id
        agent_name := agent.name
        message_type := "argument"
        content := errorContent agent round_num
        round_number := round_num
        metadata := [("error", e)] }

/-- Body of the inner `for agent in session.agents` loop of `start_debate`:
agents whose id is missing from `agent_registry` are skipped (`continue`);
otherwise the produced turn is appended to `session.messages`.  (The
`round_messages` local and the `store_debate_message` write are side
channels that do not feed back into the loop.) -/
def process_agent (env : DebateEnv) (round_num : Nat) (session : DebateSession)
    (agent : Agent) : DebateSession :=
  if env.registry.contains agent.id then
    { session with
        messages := session.messages ++ [turnMessage env session round_num agent] }
  else
    session

/-- One round of `start_debate`: set `session.current_round = round_num`,
then run every agent of `session.agents` in list order. -/
def run_round (env : DebateEnv) (session : DebateSession) (round_num : Nat) :
    DebateSession :=
  let session := { session with current_round := round_num }
  session.agents.foldl (process_agent env round_num) session

/-- `DebateService.evaluate_consensus`: the acknowledged stub that always
reports no consensus, with level `0.0` and empty point lists. -/
def evaluate_consensus (session_id : String) : ConsensusResult :=
  { consensus_reached := false
    consensus_level := 0
    agreement_points := []
    disagreement_points := []
    final_decision := none
    voting_results := [] }

/-- The `for round_num in range(...)` loop of `start_debate` over an
explicit list of round numbers: run the round, evaluate consensus, and
either record the consensus result and stop (`break`) or continue. -/
def run_rounds (env : DebateEnv) (session : DebateSession) :
    List Nat → DebateSession
  | [] => session
  | r :: rs =>
    let s1 := run_round env session r
    let consensus := evaluate_consensus s1.id
    if consensus.consensus_reached then
      { s1 with
          consensus_reached := true
          consensus_result := some consensus
          status := "consensus_reached" }
    else
      run_rounds env s1 rs

/-- `DebateService.start_debate`: iterate rounds
`range(session.current_round + 1, max_rounds + 1)`; afterwards, if consensus
was not reached, set `status = "ended"`.  (The `store_session` writes are
side channels modelled separately by the memory-service embedding.) -/
def start_debate (env : DebateEnv) (session : DebateSession) : DebateSession :=
  let rounds := List.range' (session.current_round + 1)
    (session.max_rounds - session.current_round)
  let s := run_rounds env session rounds
  if !s.consensus_reached then { s with status := "ended" } else s

/-! ### Roster creation (`services/agent_service.py`) -/

/-- Character class of the regex `[a-zA-Z0-9_]` used by
`AgentService._sanitize_agent_name`. -/
def isWordChar (c : Char) : Bool :=
  ('a' ≤ c && c ≤ 'z') || ('A' ≤ c && c ≤ 'Z') || ('0' ≤ c && c ≤ '9') || c = '_'

/-- `re.sub(r'[^a-zA-Z0-9_]', '_', name)`: every character outside the word
class becomes an underscore. -/
def subNonWord (s : List Char) : List Char :=
  s.map (fun c => if isWordChar c then c else '_')

/-- Python `str.strip('_')`: drop underscores from both ends. -/
def stripUnderscores (s : List Char) : List Char :=
  ((s.dropWhile (· = '_')).reverse.dropWhile (· = '_')).reverse

/-- Core of `AgentService._sanitize_agent_name` on character lists:
substitute non-word characters, prepend `"agent_"` when the (non-empty)
result starts with a character that is neither a letter nor an underscore,
strip leading/trailing underscores, and fall back to `"agent"` when empty.
(After the substitution every character is ASCII, so Python's Unicode
`str.isalpha` coincides with `Char.isAlpha` here.) -/
def sanitizeChars (name : List Char) : List Char :=
  let s1 := subNonWord name
  let s2 :=
    match s1 with
    | [] => s1
    | c :: _ => if !c.isAlpha && c ≠ '_' then "agent_".data ++ s1 else s1
  let s3 := stripUnderscores s2
  if s3.isEmpty then "agent".data else s3

/-- `AgentService._sanitize_agent_name` as a string function. -/
def _sanitize_agent_name (name : String) : String :=
  String.mk (sanitizeChars name.data)

/-- The fixed library of generic archetype participants in
`AgentService._create_fallback_agents` (`base_agents`).  The uuid `id` of
each constructed `Agent` is abstracted by its (unique) base name. -/
def fallbackBase : List Agent :=
  [{ id := "Analyst", name := "Analyst", role := "Data Analyst"
     personality := "Analytical and detail-oriented"
     goals := ["Provide data-driven insights"]
     constraints := ["Must base arguments on evidence"]
     expertise := ["Data analysis", "Statistics"]
     initial_stance := "Neutral, seeking evidence"
     reasoning_style := "Logical and systematic"
     communication_style := "Precise and factual" },
   { id := "Advocate", name := "Advocate", role := "User Advocate"
     personality := "Empathetic and passionate"
     goals := ["Represent user interests"]
     constraints := ["Must consider user impact"]
     expertise := ["User experience", "Human factors"]
     initial_stance := "Pro-user benefits"
     reasoning_style := "Empathetic and holistic"
     communication_style := "Persuasive and emotional" },
   { id := "Pragmatist", name := "Pragmatist", role := "Implementation Specialist"
     personality := "Practical and realistic"
     goals := ["Ensure feasible solutions"]
     constraints := ["Must consider practical limitations"]
     expertise := ["Implementation", "Resource management"]
     initial_stance := "Focused on feasibility"
     reasoning_style := "Practical and solution-oriented"
     communication_style := "Direct and pragmatic" },
   { id := "Innovator", name := "Innovator", role := "Innovation Lead"
     personality := "Creative and forward-thinking"
     goals := ["Drive innovation and new ideas"]
     constraints := ["Must consider long-term impact"]
     expertise := ["Innovation", "Technology trends"]
     initial_stance := "Focused on future opportunities"
     reasoning_style := "Creative and visionary"
     communication_style := "Inspiring and enthusiastic" },
   { id := "Strategist", name := "Strategist", role := "Business Strategist"
     personality := "Strategic and analytical"
     goals := ["Optimize business outcomes"]
     constraints := ["Must consider market dynamics"]
     expertise := ["Strategy", "Market analysis"]
     initial_stance := "Focused on competitive advantage"
     reasoning_style := "Strategic and comprehensive"
     communication_style := "Authoritative and clear" },
   { id := "Guardian", name := "Guardian", role := "Risk Manager"
     personality := "Cautious and thorough"
     goals := ["Minimize risks and protect interests"]
     constraints := ["Must consider potential downsides"]
     expertise := ["Risk assessment", "Compliance"]
     initial_stance := "Risk-averse and protective"
     reasoning_style := "Careful and methodical"
     communication_style := "Cautious and detailed" }]

/-- `AgentService._create_fallback_agents`: take
`base_agents[:min(agent_count, len(base_agents))]`, then cycle through the
selection `agent_count` times, suffixing `" {i+1}"` to the name of every
duplicate beyond the selection length. -/
def _create_fallback_agents (agent_count : Nat) : List Agent :=
  let selected := fallbackBase.take (min agent_count fallbackBase.length)
  (List.range agent_count).map (fun i =>
    let base := selected.getD (i % selected.length) default
    if i ≥ selected.length then
      { base with name := base.name ++ " " ++ toString (i + 1) }
    else base)

/-- `AgentService._build_agent_generation_prompt`, condensed to the data it
depends on (the literal instruction text surrounding the scenario and the
count plays no role in any claim: the backend receiving it is abstract). -/
def _build_agent_generation_prompt (scenario : String) (agent_count : Nat) :
    String :=
  "Generate " ++ toString agent_count ++ " agents for scenario: " ++ scenario

/-- External collaborators of `AgentService.generate_agents`:
`available_providers` is `llm_service.get_available_providers()`;
`generate_response provider prompt` is the orchestrator-LLM call
(`llm_service.generate_response`), failing with the exception message;
`parse_agents` is the JSON parsing step of `_parse_llm_response_to_agents`
(`none` models a parse failure, which the source recovers from with the
fallback library); `select_llm_for_agent` / `select_llms_for_agents` stand
for the provider-selection strategies of `llm_service`. -/
structure AgentGenEnv where
  available_providers : List String
  generate_response : String → String → Except String String
  parse_agents : String → Option (List Agent)
  select_llm_for_agent : Agent → String
  select_llms_for_agents : List Agent → List (String × String)

/-- `AgentService._parse_llm_response_to_agents`: parse the LLM output; on
parse failure (caught internally) return the fallback library sized to
`agent_count`. -/
def parse_llm_response_to_agents (env : AgentGenEnv) (content : String)
    (agent_count : Nat) : List Agent :=
  (env.parse_agents content).getD (_create_fallback_agents agent_count)

/-- The provider retry loop of `generate_agents` (steps 2–3).  Returns the
parsed roster of the first provider whose `generate_response` call
succeeds, plus the trace of providers for which a generation call was
actually attempted (providers not in `available_providers` are skipped
without an attempt; a failed call moves on to the next provider). -/
def tryProviders (env : AgentGenEnv) (prompt : String) (agent_count : Nat) :
    List String → List String → Option (List Agent) × List String
  | [], attempted => (none, attempted)
  | p :: rest, attempted =>
    if env.available_providers.contains p then
      match env.generate_response p prompt with
      | .ok content =>
          (some (parse_llm_response_to_agents env content agent_count),
           attempted ++ [p])
      | .error _ => tryProviders env prompt agent_count rest (attempted ++ [p])
    else
      tryProviders env prompt agent_count rest attempted

/-- Step 4 of `generate_agents`: assign
`llm_assignments.get(agent.id, settings.default_llm_provider)` to every
agent.  (The parallel `llm_config` assignment carries no information the
claims touch and is omitted.) -/
def assign_providers (env : AgentGenEnv) (agents : List Agent) : List Agent :=
  let assignments := env.select_llms_for_agents agents
  agents.map (fun a =>
    { a with
        llm_provider := some ((((assignments.find? (fun kv => kv.1 = a.id))).map
          (fun kv => kv.2)).getD settings.default_llm_provider) })

/-- `AgentService.generate_agents`.  The second component of the result is
the trace of providers for which an orchestrator-LLM generation call was
attempted.  When `custom_agents` is supplied and non-empty (Python
truthiness) the custom roster is returned directly after binding a provider
to any agent missing one; otherwise the generation prompt is built,
providers are tried in order `[default] + (available − default)`, and if
every provider fails the fallback library is used.  Note: the function
contains no validation of `agent_count` against `settings.debate_min_agents`
/ `settings.debate_max_agents`. -/
def generate_agents (env : AgentGenEnv) (scenario : String) (agent_count : Nat)
    (custom_agents : Option (List Agent)) : List Agent × List String :=
  match custom_agents with
  | some cs =>
    if cs ≠ [] then
      (cs.map (fun a =>
        if a.llm_provider = none then
          { a with llm_provider := some (env.select_llm_for_agent a) }
        else a), [])
    else generate_agents_from_llm env scenario agent_count
  | none => generate_agents_from_llm env scenario agent_count
where
  /-- The non-custom path of `generate_agents` (steps 1–5). -/
  generate_agents_from_llm (env : AgentGenEnv) (scenario : String)
      (agent_count : Nat) : List Agent × List String :=
    let prompt := _build_agent_generation_prompt scenario agent_count
    let providers_to_try := settings.default_llm_provider ::
      env.available_providers.filter (fun p => p ≠ settings.default_llm_provider)
    match tryProviders env prompt agent_count providers_to_try [] with
    | (some agents, attempted) => (assign_providers env agents, attempted)
    | (none, attempted) =>
        (assign_providers env (_create_fallback_agents agent_count), attempted)

/-! ### Redis session store (`services/memory_service.py`) -/

/-- Serialized payloads the memory service writes to Redis
(`json.dumps(..., default=str)` of the respective model). -/
inductive RedisPayload where
  | sessionData (s : DebateSession)
  | orchestratorState (config : List (String × String))
  | messageData (m : DebateMessage)
  | memoryData (m : AgentMemory)
deriving Repr, DecidableEq

/-- A Redis value: a plain string value (written by `SETEX`) or a list
(written by `LPUSH`). -/
inductive RedisVal where
  | str (payload : RedisPayload)
  | list (items : List RedisPayload)
deriving Repr, DecidableEq

/-- One Redis key's state: its value and its remaining time-to-live
(`none` = no expiry, the key persists indefinitely). -/
structure RedisEntry where
  val : RedisVal
  ttl : Option Nat
deriving Repr, DecidableEq

/-- The Redis key space. -/
def RedisState := String → Option RedisEntry

/-- `SETEX key ttl value`: store a string value with the given expiry. -/
def redisSetex (st : RedisState) (key : String) (ttl : Nat)
    (v : RedisPayload) : RedisState :=
  fun k => if k = key then some { val := .str v, ttl := some ttl } else st k

/-- `LPUSH key value`: prepend to the list at `key`, creating a list with
no expiry when the key is absent; an existing key keeps its TTL.  (A
`WRONGTYPE` error against a string key is left as a no-op: the memory
service namespaces its keys so the case is unreachable.) -/
def redisLpush (st : RedisState) (key : String) (v : RedisPayload) :
    RedisState :=
  fun k =>
    if k = key then
      match st key with
      | some e =>
        match e.val with
        | .list items => some { val := .list (v :: items), ttl := e.ttl }
        | .str _ => some e
      | none => some { val := .list [v], ttl := none }
    else st k

/-- `EXPIRE key ttl`: set the expiry of an existing key. -/
def redisExpire (st : RedisState) (key : String) (ttl : Nat) : RedisState :=
  fun k =>
    if k = key then
      match st key with
      | some e => some { e with ttl := some ttl }
      | none => none
    else st k

/-- Key of a stored session: `f"session:{session.id}"`. -/
def sessionKey (s : DebateSession) : String := "session:" ++ s.id

/-- Key of a stored agent memory:
`f"agent_memory:{memory.session_id}:{memory.agent_id}"`. -/
def agentMemoryKey (m : AgentMemory) : String :=
  "agent_memory:" ++ m.session_id ++ ":" ++ m.agent_id

/-- Key of a session's message list: `f"debate_messages:{message.session_id}"`. -/
def debateMessagesKey (m : DebateMessage) : String :=
  "debate_messages:" ++ m.session_id

/-- `MemoryService.store_session`: `SETEX` the serialized session under
`session:{id}` with `memory_ttl_seconds`; when `orchestrator_id` is set,
additionally store the ADK orchestrator state
(`store_adk_orchestrator_state`, itself a `SETEX` with the same TTL). -/
def store_session (st : RedisState) (s : DebateSession) : RedisState :=
  let st1 := redisSetex st (sessionKey s) settings.memory_ttl_seconds
    (.sessionData s)
  match s.orchestrator_id with
  | some oid =>
      redisSetex st1 ("adk_orchestrator:" ++ s.id ++ ":" ++ oid)
        settings.memory_ttl_seconds (.orchestratorState s.adk_session_config)
  | none => st1

/-- `MemoryService.store_agent_memory`: `SETEX` under
`agent_memory:{session_id}:{agent_id}` with `memory_ttl_seconds`. -/
def store_agent_memory (st : RedisState) (m : AgentMemory) : RedisState :=
  redisSetex st (agentMemoryKey m) settings.memory_ttl_seconds (.memoryData m)

/-- `MemoryService.store_debate_message`: `LPUSH` the serialized message
onto `debate_messages:{session_id}`, then `EXPIRE` that key with
`memory_ttl_seconds`. -/
def store_debate_message (st : RedisState) (m : DebateMessage) : RedisState :=
  redisExpire (redisLpush st (debateMessagesKey m) (.messageData m))
    (debateMessagesKey m) settings.memory_ttl_seconds

/-! ### Loop skeleton lemmas -/

/-- Projection of a transcript message to the fields the loop skeleton
determines independently of the generation outcome. -/
def msgKey (m : DebateMessage) : String × Nat := (m.agent_id, m.round_number)

theorem turnMessage_msgKey (env : DebateEnv) (s : DebateSession) (r : Nat)
    (a : Agent) : msgKey (turnMessage env s r a) = (a.id, r) := by
  unfold turnMessage msgKey
  cases env.gen a (build_agent_context env s a) <;> rfl

theorem process_agent_eq (env : DebateEnv) (r : Nat) (s : DebateSession)
    (a : Agent) :
    process_agent env r s a
      = { s with messages := s.messages ++
          (if env.registry.contains a.id then [turnMessage env s r a] else []) } := by
  unfold process_agent
  split <;> simp_all

theorem foldl_process_agent_frame (env : DebateEnv) (r : Nat) :
    ∀ (as : List Agent) (s : DebateSession),
      as.foldl (process_agent env r) s
        = { s with messages := (as.foldl (process_agent env r) s).messages }
  | [], _ => rfl
  | a :: as, s => by
    rw [List.foldl_cons, foldl_process_agent_frame env r as (process_agent env r s a),
      process_agent_eq env r s a]

theorem foldl_process_agent_msgs (env : DebateEnv) (r : Nat) :
    ∀ (as : List Agent) (s : DebateSession),
      ((as.foldl (process_agent env r) s).messages).map msgKey
        = s.messages.map msgKey
          ++ (as.filter (fun a => env.registry.contains a.id)).map
              (fun a => (a.id, r))
  | [], s => by simp
  | a :: as, s => by
    rw [List.foldl_cons, foldl_process_agent_msgs env r as (process_agent env r s a),
      process_agent_eq env r s a]
    by_cases h : a.id ∈ env.registry
    · simp [h, turnMessage_msgKey]
    · simp [h]

theorem run_round_frame (env : DebateEnv) (s : DebateSession) (r : Nat) :
    run_round env s r
      = { s with current_round := r, messages := (run_round env s r).messages } := by
  simp only [run_round]
  rw [foldl_process_agent_frame]

theorem run_round_agents (env : DebateEnv) (s : DebateSession) (r : Nat) :
    (run_round env s r).agents = s.agents := by
  conv_lhs => rw [run_round_frame env s r]

theorem run_round_msgs (env : DebateEnv) (s : DebateSession) (r : Nat) :
    (run_round env s r).messages.map msgKey
      = s.messages.map msgKey
        ++ (s.agents.filter (fun a => env.registry.contains a.id)).map
            (fun a => (a.id, r)) := by
  simp only [run_round]
  rw [foldl_process_agent_msgs]

theorem run_rounds_eq_foldl (env : DebateEnv) :
    ∀ (rs : List Nat) (s : DebateSession),
      run_rounds env s rs = rs.foldl (run_round env) s
  | [], _ => rfl
  | r :: rs, s => run_rounds_eq_foldl env rs (run_round env s r)

theorem foldl_run_round_frame (env : DebateEnv) :
    ∀ (rs : List Nat) (s : DebateSession),
      rs.foldl (run_round env) s
        = { s with
            current_round := rs.foldl (fun _ r => r) s.current_round,
            messages := (rs.foldl (run_round env) s).messages }
  | [], _ => rfl
  | r :: rs, s => by
    rw [List.foldl_cons, foldl_run_round_frame env rs (run_round env s r),
      run_round_frame env s r, List.foldl_cons]

theorem foldl_run_round_msgs (env : DebateEnv) :
    ∀ (rs : List Nat) (s : DebateSession),
      ((rs.foldl (run_round env) s).messages).map msgKey
        = s.messages.map msgKey
          ++ (rs.map (fun r =>
              (s.agents.filter (fun a => env.registry.contains a.id)).map
                (fun a => (a.id, r)))).flatten
  | [], s => by simp
  | r :: rs, s => by
    rw [List.foldl_cons, foldl_run_round_msgs env rs (run_round env s r),
      run_round_msgs env s r, run_round_agents env s r]
    simp [List.append_assoc]

theorem start_debate_messages (env : DebateEnv) (s : DebateSession) :
    (start_debate env s).messages
      = ((List.range' (s.current_round + 1) (s.max_rounds - s.current_round)).foldl
          (run_round env) s).messages := by
  simp only [start_debate]
  rw [run_rounds_eq_foldl]
  split <;> rfl

theorem start_debate_current_round (env : DebateEnv) (s : DebateSession) :
    (start_debate env s).current_round
      = (List.range' (s.current_round + 1) (s.max_rounds - s.current_round)).foldl
          (fun _ r => r) s.current_round := by
  simp only [start_debate]
  rw [run_rounds_eq_foldl]
  split
  · conv_lhs => rw [foldl_run_round_frame]
  · conv_lhs => rw [foldl_run_round_frame]

theorem start_debate_max_rounds (env : DebateEnv) (s : DebateSession) :
    (start_debate env s).max_rounds = s.max_rounds := by
  simp only [start_debate]
  rw [run_rounds_eq_foldl]
  split
  · conv_lhs => rw [foldl_run_round_frame]
  · conv_lhs => rw [foldl_run_round_frame]

theorem start_debate_ended (env : DebateEnv) (s : DebateSession)
    (h2 : s.consensus_reached = false) :
    (start_debate env s).status = "ended"
      ∧ (start_debate env s).consensus_reached = false
      ∧ (start_debate env s).consensus_result = s.consensus_result := by
  simp only [start_debate]
  rw [run_rounds_eq_foldl]
  rw [foldl_run_round_frame]
  simp [h2]

/-- The last element picked by the fold `foldl (fun _ r => r)` over a
non-empty `range'`. -/
theorem foldl_pick_last_range' (c s n : Nat) :
    (List.range' s (n + 1)).foldl (fun _ r => r) c = s + n := by
  rw [List.range'_concat, List.foldl_append]
  simp

theorem start_debate_current_round_eq_max (env : DebateEnv) (s : DebateSession)
    (h1 : s.current_round ≤ s.max_rounds) :
    (start_debate env s).current_round = s.max_rounds := by
  rw [start_debate_current_round]
  rcases Nat.lt_or_ge s.current_round s.max_rounds with h | h
  · have hn : s.max_rounds - s.current_round
        = (s.max_rounds - s.current_round - 1) + 1 := by omega
    rw [hn, foldl_pick_last_range']
    omega
  · have hz : s.max_rounds - s.current_round = 0 := by omega
    rw [hz, List.range'_zero]
    simpa using Nat.le_antisymm h1 h

/-- Sum of a constant-valued map. -/
theorem sum_map_const_nat {α : Type} (k : Nat) :
    ∀ (l : List α), (l.map (fun _ => k)).sum = l.length * k
  | [] => by simp
  | a :: l => by
    simp [sum_map_const_nat k l, Nat.succ_mul, Nat.add_comm]

/-- Flattening blocks that are empty away from a single index:
if `R` occurs exactly once (nodup membership), only its block survives. -/
theorem flatten_ite_nil {β : Type} (g : Nat → List β) (R : Nat) :
    ∀ (rs : List Nat), R ∉ rs →
      (rs.map (fun r => if r = R then g r else [])).flatten = []
  | [], _ => rfl
  | r :: rs, h => by
    have hr : r ≠ R := fun hrR => h (hrR ▸ List.mem_cons_self r rs)
    have hR : R ∉ rs := fun hmem => h (List.mem_cons_of_mem r hmem)
    simp [hr, flatten_ite_nil g R rs hR]

theorem flatten_ite_single {β : Type} (g : Nat → List β) (R : Nat) :
    ∀ (rs : List Nat), rs.Nodup → R ∈ rs →
      (rs.map (fun r => if r = R then g r else [])).flatten = g R
  | [], _, hmem => absurd hmem (List.not_mem_nil R)
  | r :: rs, hnd, hmem => by
    by_cases hrR : r = R
    · subst hrR
      have hR : r ∉ rs := (List.nodup_cons.mp hnd).1
      simp [flatten_ite_nil g r rs hR]
    · have hmem' : R ∈ rs := by
        rcases List.mem_cons.mp hmem with h | h
        · exact absurd h.symm hrR
        · exact h
      simp [hrR, flatten_ite_single g R rs (List.nodup_cons.mp hnd).2 hmem']

theorem filter_msgKey_comm (L : List DebateMessage) (R : Nat) :
    (L.filter (fun m => m.round_number == R)).map (fun m => m.agent_id)
      = ((L.map msgKey).filter (fun x => x.2 == R)).map Prod.fst := by
  rw [List.filter_map, List.map_map]
  rfl

theorem filter_block (l : List Agent) (r R : Nat) :
    ((l.map (fun a => ((a.id : String), r))).filter (fun x => x.2 == R))
      = if r = R then l.map (fun a => (a.id, r)) else [] := by
  rw [List.filter_map]
  by_cases h : r = R
  · subst h
    simp [Function.comp_def]
  · simp [Function.comp_def, h]

/-- Restriction of the final transcript of `start_debate` to one executed
round: the agent ids of round `R`'s turns, in order, are exactly the ids of
the registered agents in `session.agents` order. -/
theorem start_debate_round_slice (env : DebateEnv) (s : DebateSession) (R : Nat)
    (h1 : s.messages = []) (hR1 : s.current_round < R) (hR2 : R ≤ s.max_rounds) :
    ((start_debate env s).messages.filter (fun m => m.round_number == R)).map
        (fun m => m.agent_id)
      = (s.agents.filter (fun a => env.registry.contains a.id)).map
          (fun a => a.id) := by
  rw [filter_msgKey_comm, start_debate_messages, foldl_run_round_msgs, h1]
  simp only [List.map_nil, List.nil_append]
  rw [List.filter_flatten, List.map_map]
  have hmem : R ∈ List.range' (s.current_round + 1)
      (s.max_rounds - s.current_round) := by
    rw [List.mem_range'_1]
    omega
  have hnd : (List.range' (s.current_round + 1)
      (s.max_rounds - s.current_round)).Nodup :=
    List.nodup_range' _ _
  have hblocks : (List.range' (s.current_round + 1)
        (s.max_rounds - s.current_round)).map
        (List.filter (fun x => x.2 == R) ∘ fun r =>
          (s.agents.filter (fun a => env.registry.contains a.id)).map
            (fun a => (a.id, r)))
      = (List.range' (s.current_round + 1) (s.max_rounds - s.current_round)).map
          (fun r => if r = R then
            (s.agents.filter (fun a => env.registry.contains a.id)).map
              (fun a => (a.id, r)) else []) := by
    apply List.map_congr_left
    intro r _
    exact filter_block _ r R
  rw [hblocks,
    flatten_ite_single
      (fun r => (s.agents.filter (fun a => env.registry.contains a.id)).map
        (fun a => (a.id, r))) R _ hnd hmem,
    List.map_map]
  rfl

/-! ### Concrete fixtures -/

/-- A concrete participant used in witnesses and counterexamples. -/
def agentAlice : Agent :=
  { id := "a1", name := "Alice", role := "Economist", personality := "calm"
    goals := ["reach a deal"], constraints := ["stay factual"]
    expertise := ["markets"], initial_stance := "pro"
    reasoning_style := "logical", communication_style := "direct" }

/-- A second concrete participant; its generation backend fails below. -/
def agentBob : Agent := { agentAlice with id := "a2", name := "Bob" }

/-- A concrete successful backend response. -/
def okResponse : LLMResponse :=
  { content := "hello", provider := "openai", model := "gpt-4"
    tokens_used := 10, finish_reason := "stop" }

/-- A deterministic environment with both agents registered in which Bob's
generation call always raises. -/
def envTwoAgents : DebateEnv :=
  { registry := ["a1", "a2"]
    gen := fun a _ => if a.id = "a2" then .error "timeout" else .ok okResponse
    memory := fun _ _ => none }

/-- An environment whose ADK agent registry is empty (every
`create_adk_agent` call failed during `create_session`). -/
def envEmptyRegistry : DebateEnv :=
  { registry := []
    gen := fun _ _ => .ok okResponse
    memory := fun _ _ => none }

/-- A fresh two-agent session about to run two rounds. -/
def sessionTwo : DebateSession :=
  { id := "s1", scenario := "Should remote work be mandatory?"
    agents := [agentAlice, agentBob], status := "debating"
    current_round := 0, max_rounds := 2, consensus_reached := false
    consensus_result := none, messages := [] }

/-- A fresh one-agent, one-round session. -/
def sessionOne : DebateSession :=
  { sessionTwo with agents := [agentAlice], max_rounds := 1 }

/-- A roster-generation environment with one available provider whose
orchestrator call always fails. -/
def genEnvFailing : AgentGenEnv :=
  { available_providers := ["openai"]
    generate_response := fun _ _ => .error "rate limited"
    parse_agents := fun _ => none
    select_llm_for_agent := fun _ => "openai"
    select_llms_for_agents := fun _ => [] }

/-! ### Claims -/

/-- C1, counterexample to the claim as stated: in a session whose single
participant is absent from the ADK agent registry (its `create_adk_agent`
call failed during `create_session`), the completed round 1 contributes
zero turns to the transcript, not one per participant: the loop `continue`s
over unregistered agents. -/
theorem C1_counterexample :
    ¬ (((start_debate envEmptyRegistry sessionOne).messages.filter
        (fun m => m.round_number == 1)).length = sessionOne.agents.length) := by
  decide

/-- C1 (amended): for every completed round `R` of `start_debate`, the
number of transcript turns with `round_number == R` equals the number of
participants of `session.agents` whose id is present in the ADK agent
registry — no turns dropped, no duplicates — even when generation calls
fail (failures still produce an error-marker turn). -/
theorem C1_round_turn_cardinality (env : DebateEnv) (s : DebateSession)
    (R : Nat) (h1 : s.messages = []) (hR1 : s.current_round < R)
    (hR2 : R ≤ s.max_rounds) :
    ((start_debate env s).messages.filter
        (fun m => m.round_number == R)).length
      = (s.agents.filter (fun a => env.registry.contains a.id)).length := by
  have h := congrArg List.length (start_debate_round_slice env s R h1 hR1 hR2)
  simpa using h

/-- C1, witness: the two-round two-agent session (one failing backend)
yields exactly two turns in round 1. -/
theorem C1_round_turn_cardinality_witness :
    sessionTwo.messages = [] ∧ sessionTwo.current_round < 1
    ∧ 1 ≤ sessionTwo.max_rounds
    ∧ ((start_debate envTwoAgents sessionTwo).messages.filter
        (fun m => m.round_number == 1)).length
      = (sessionTwo.agents.filter
          (fun a => envTwoAgents.registry.contains a.id)).length :=
  ⟨rfl, by decide, by decide,
    C1_round_turn_cardinality envTwoAgents sessionTwo 1 rfl (by decide)
      (by decide)⟩

/-- C2: when the generation step for a registered participant raises, the
loop appends the fallback turn (content flags the error, metadata records
the error detail, `round_number` is the current round) and then continues:
after the remaining participants are processed the transcript has grown by
one turn for this participant plus one per remaining registered
participant. -/
theorem C2_generation_failure_fallback (env : DebateEnv) (r : Nat)
    (s : DebateSession) (a : Agent) (rest : List Agent) (e : String)
    (hreg : env.registry.contains a.id = true)
    (hgen : env.gen a (build_agent_context env s a) = .error e) :
    process_agent env r s a
      = { s with messages := s.messages ++
          [{ session_id := s.id, agent_id := a.id, agent_name := a.name,
             message_type := "argument", content := errorContent a r,
             round_number := r, metadata := [("error", e)] }] }
    ∧ ((rest.foldl (process_agent env r)
        (process_agent env r s a)).messages).length
      = s.messages.length + 1
        + (rest.filter (fun b => env.registry.contains b.id)).length := by
  have hmem : a.id ∈ env.registry := by simpa using hreg
  constructor
  · simp [process_agent, turnMessage, hmem, hgen]
  · have h := congrArg List.length
      (foldl_process_agent_msgs env r rest (process_agent env r s a))
    simp only [List.length_map, List.length_append] at h
    have hpa : (process_agent env r s a).messages.length
        = s.messages.length + 1 := by
      rw [process_agent_eq env r s a]
      simp [hmem]
    omega

/-- C2, witness: Bob's failing backend in round 1 of the concrete session,
with Alice still to speak. -/
theorem C2_generation_failure_fallback_witness :
    envTwoAgents.registry.contains agentBob.id = true
    ∧ envTwoAgents.gen agentBob
        (build_agent_context envTwoAgents sessionTwo agentBob)
      = .error "timeout"
    ∧ (([agentAlice].foldl (process_agent envTwoAgents 1)
        (process_agent envTwoAgents 1 sessionTwo agentBob)).messages).length
      = sessionTwo.messages.length + 1
        + ([agentAlice].filter
            (fun b => envTwoAgents.registry.contains b.id)).length :=
  ⟨by decide, rfl,
    (C2_generation_failure_fallback envTwoAgents 1 sessionTwo agentBob
      [agentAlice] "timeout" (by decide) rfl).2⟩

/-- C3: starting from a well-formed session (`current_round ≤ max_rounds`,
consensus not yet reached), `start_debate` iterates rounds
`current_round + 1 .. max_rounds` and leaves `current_round ≤ max_rounds`;
whenever it terminates with `status == "ended"`, `current_round ==
max_rounds` and `consensus_reached == false`. -/
theorem C3_round_bounds (env : DebateEnv) (s : DebateSession)
    (h1 : s.current_round ≤ s.max_rounds) (h2 : s.consensus_reached = false) :
    (start_debate env s).current_round ≤ (start_debate env s).max_rounds
    ∧ ((start_debate env s).status = "ended" →
        (start_debate env s).current_round = (start_debate env s).max_rounds
        ∧ (start_debate env s).consensus_reached = false) := by
  have hmax := start_debate_max_rounds env s
  have hcur := start_debate_current_round_eq_max env s h1
  have hend := start_debate_ended env s h2
  exact ⟨by rw [hcur, hmax], fun _ => ⟨by rw [hcur, hmax], hend.2.1⟩⟩

/-- C3, witness: the concrete two-round session. -/
theorem C3_round_bounds_witness :
    sessionTwo.current_round ≤ sessionTwo.max_rounds
    ∧ sessionTwo.consensus_reached = false
    ∧ ((start_debate envTwoAgents sessionTwo).status = "ended" →
        (start_debate envTwoAgents sessionTwo).current_round
          = (start_debate envTwoAgents sessionTwo).max_rounds
        ∧ (start_debate envTwoAgents sessionTwo).consensus_reached = false) :=
  ⟨by decide, rfl,
    (C3_round_bounds envTwoAgents sessionTwo (by decide) rfl).2⟩

/-- C4: `evaluate_consensus` returns the well-formed no-consensus result —
`consensus_reached = false`, `consensus_level = 0.0`, empty agreement and
disagreement point lists — for every session id, in particular before any
participant has spoken; it never fails. -/
theorem C4_consensus_stub_shape (session_id : String) :
    evaluate_consensus session_id
      = { consensus_reached := false, consensus_level := 0
          agreement_points := [], disagreement_points := []
          final_decision := none, voting_results := [] } := rfl

/-- C5: with a deterministic generation backend, two runs of `start_debate`
on identical session state produce identical results (the embedding makes
the loop a function of the environment and the session), and within each
executed round `R` the turns appear in the order the registered
participants occur in `session.agents`. -/
theorem C5_deterministic_registry_order (env env' : DebateEnv)
    (s : DebateSession) (R : Nat)
    (hgen : env.gen = env'.gen) (hreg : env.registry = env'.registry)
    (hmem : env.memory = env'.memory)
    (h1 : s.messages = []) (hR1 : s.current_round < R)
    (hR2 : R ≤ s.max_rounds) :
    start_debate env s = start_debate env' s
    ∧ ((start_debate env s).messages.filter
        (fun m => m.round_number == R)).map (fun m => m.agent_id)
      = (s.agents.filter (fun a => env.registry.contains a.id)).map
          (fun a => a.id) := by
  have henv : env = env' := by
    cases env
    cases env'
    simp_all
  exact ⟨by rw [henv], start_debate_round_slice env s R h1 hR1 hR2⟩

/-- C5, witness: round 2 of the concrete session lists Alice then Bob, in
registry order. -/
theorem C5_deterministic_registry_order_witness :
    envTwoAgents.gen = envTwoAgents.gen
    ∧ sessionTwo.messages = [] ∧ sessionTwo.current_round < 2
    ∧ 2 ≤ sessionTwo.max_rounds
    ∧ ((start_debate envTwoAgents sessionTwo).messages.filter
        (fun m => m.round_number == 2)).map (fun m => m.agent_id)
      = (sessionTwo.agents.filter
          (fun a => envTwoAgents.registry.contains a.id)).map
          (fun a => a.id) :=
  ⟨rfl, rfl, by decide, by decide,
    (C5_deterministic_registry_order envTwoAgents envTwoAgents sessionTwo 2
      rfl rfl rfl rfl (by decide) (by decide)).2⟩

/-- C6, evaluation at the failing input: `generate_agents` performs no
bounds check on `agent_count`.  With `agent_count = 11`, strictly above
`settings.debate_max_agents = 10`, a generation attempt is made (the
provider trace is non-empty) and a roster of 11 agents is returned instead
of the request being rejected. -/
theorem C6_no_bounds_check :
    settings.debate_max_agents < 11
    ∧ (generate_agents genEnvFailing "Should remote work be mandatory?" 11
        none).2 = ["openai"]
    ∧ (generate_agents genEnvFailing "Should remote work be mandatory?" 11
        none).1.length = 11 :=
  ⟨by decide, rfl, rfl⟩

/-- C7, evaluation at the failing input: `_sanitize_agent_name` strips
underscores after the leading-character check, so the input `"_1"` yields
`"1"`, which starts with a digit, contradicting the claimed invariant (and
the source's own comment that the result starts with a letter or an
underscore). -/
theorem C7_sanitize_digit_start :
    _sanitize_agent_name "_1" = "1"
    ∧ (('1' : Char).isDigit = true) := ⟨rfl, rfl⟩

/-- C8, evaluation of the missing status check: the loop of `start_debate`
never reads `session.status`, so the per-round transcript skeleton is
identical whatever the status is, and a session whose status is already
`"paused"` still begins new rounds: the concrete paused two-round session
gains 4 turns and advances to round 2. -/
theorem C8_no_status_check :
    (∀ (env : DebateEnv) (s : DebateSession) (st st' : String),
        ((start_debate env { s with status := st }).messages).map msgKey
          = ((start_debate env { s with status := st' }).messages).map msgKey)
    ∧ (start_debate envTwoAgents
        { sessionTwo with status := "paused" }).messages.length = 4
    ∧ (start_debate envTwoAgents
        { sessionTwo with status := "paused" }).current_round = 2 := by
  refine ⟨?_, by decide, by decide⟩
  intro env s st st'
  rw [start_debate_messages, start_debate_messages, foldl_run_round_msgs,
    foldl_run_round_msgs]

/-- C9: with the always-false consensus stub the consensus branch of
`start_debate` is unreachable: every completing run ends with
`status = "ended"`, `consensus_reached = false`, `consensus_result = none`,
having executed exactly `max_rounds - current_round` rounds (the transcript
grows by that many turns per registered participant). -/
theorem C9_always_ends (env : DebateEnv) (s : DebateSession)
    (h2 : s.consensus_reached = false) (h3 : s.consensus_result = none) :
    (start_debate env s).status = "ended"
    ∧ (start_debate env s).consensus_reached = false
    ∧ (start_debate env s).consensus_result = none
    ∧ (start_debate env s).messages.length
      = s.messages.length
        + (s.max_rounds - s.current_round)
          * (s.agents.filter (fun a => env.registry.contains a.id)).length := by
  obtain ⟨ha, hb, hc⟩ := start_debate_ended env s h2
  refine ⟨ha, hb, h3 ▸ hc, ?_⟩
  rw [start_debate_messages]
  have h := congrArg List.length
    (foldl_run_round_msgs env
      (List.range' (s.current_round + 1) (s.max_rounds - s.current_round)) s)
  simp only [List.length_map, List.length_append, List.length_flatten,
    List.map_map] at h
  have hconst : (List.range' (s.current_round + 1)
        (s.max_rounds - s.current_round)).map
        (List.length ∘ fun r =>
          (s.agents.filter (fun a => env.registry.contains a.id)).map
            (fun a => ((a.id : String), r)))
      = (List.range' (s.current_round + 1)
          (s.max_rounds - s.current_round)).map
          (fun _ =>
            (s.agents.filter (fun a => env.registry.contains a.id)).length) := by
    apply List.map_congr_left
    intro r _
    simp
  rw [hconst, sum_map_const_nat, List.length_range'] at h
  exact h

/-- C9, witness: the concrete two-agent session ends after 2 rounds with
4 turns. -/
theorem C9_always_ends_witness :
    sessionTwo.consensus_reached = false
    ∧ sessionTwo.consensus_result = none
    ∧ (start_debate envTwoAgents sessionTwo).status = "ended"
    ∧ (start_debate envTwoAgents sessionTwo).messages.length
      = sessionTwo.messages.length
        + (sessionTwo.max_rounds - sessionTwo.current_round)
          * (sessionTwo.agents.filter
              (fun a => envTwoAgents.registry.contains a.id)).length :=
  ⟨rfl, rfl, (C9_always_ends envTwoAgents sessionTwo rfl rfl).1,
    (C9_always_ends envTwoAgents sessionTwo rfl rfl).2.2.2⟩

/-- C10: each of the three Redis writes of the memory service —
`store_session`, `store_agent_memory`, `store_debate_message` — leaves the
written key with expiry `memory_ttl_seconds`, so no session, agent-memory
or transcript entry is retained indefinitely. -/
theorem C10_ttl_on_writes (st : RedisState) (s : DebateSession)
    (mem : AgentMemory) (msg : DebateMessage) :
    ((store_session st s) (sessionKey s)).map RedisEntry.ttl
      = some (some settings.memory_ttl_seconds)
    ∧ ((store_agent_memory st mem) (agentMemoryKey mem)).map RedisEntry.ttl
      = some (some settings.memory_ttl_seconds)
    ∧ ((store_debate_message st msg) (debateMessagesKey msg)).map
        RedisEntry.ttl
      = some (some settings.memory_ttl_seconds) := by
  refine ⟨?_, ?_, ?_⟩
  · unfold store_session
    cases horch : s.orchestrator_id with
    | none => simp [redisSetex]
    | some oid =>
      by_cases h : sessionKey s = "adk_orchestrator:" ++ s.id ++ ":" ++ oid
      · simp [redisSetex, h]
      · simp [redisSetex, h]
  · simp [store_agent_memory, redisSetex]
  · unfold store_debate_message
    simp only [redisExpire, redisLpush, if_pos rfl]
    cases hst : st (debateMessagesKey msg) with
    | none => simp
    | some e =>
      cases hv : e.val with
      | str p => simp [hv]
      | list items => simp [hv]

end Negotiator
